import Mathlib

/-!
Shallow embedding of `src/semper-fi/app/adapters.py`.

The source defines two classes:

* `SimAdapter`: an empty class (`pass`), no attributes, no methods.
* `MilitaryOSINTAdapter`: `__init__(self, config)` stores `self.config = config`;
  `poll(self)` has an empty body (`pass`), so it returns `None` and changes nothing.

We model a Python object as its attribute dictionary (an association list from
attribute names to values).  Configuration values are opaque in the source, so
the value type is an arbitrary type parameter `α`.  A Python call either
returns normally or raises; in this program the only exception that can arise
is the `TypeError` from calling a constructor with the wrong number of
positional arguments.
-/

namespace SemperFi

/-- The only exception kind reachable in this program: the arity `TypeError`
Python raises when a callable receives the wrong number of arguments. -/
inductive PyError where
  | typeError

/-- Outcome of a Python call: a normal return value, or a raised exception. -/
inductive PyResult (α : Type) where
  | ok (v : α)
  | exn (e : PyError)

/-- A Python object, represented by its attribute dictionary: a list of
(attribute name, value) pairs.  Values are opaque, of type `α`. -/
structure Object (α : Type) where
  attrs : List (String × α)

variable {α : Type}

/-- `self.<n> = v`: bind attribute `n` to `v`, replacing any previous binding. -/
def Object.setattr (o : Object α) (n : String) (v : α) : Object α :=
  ⟨o.attrs.filter (fun p => p.1 != n) ++ [(n, v)]⟩

/-- `self.<n>`: look up attribute `n`, `none` when the attribute is absent. -/
def Object.getattr (o : Object α) (n : String) : Option α :=
  (o.attrs.find? (fun p => p.1 == n)).map (fun p => p.2)

namespace MilitaryOSINTAdapter

/-- `MilitaryOSINTAdapter.__init__(self, config)`: the body is the single
statement `self.config = config` (the rest of the method is comments). -/
def init (self : Object α) (config : α) : Object α :=
  self.setattr "config" config

/-- Calling the class `MilitaryOSINTAdapter(...)` with a list of positional
arguments: a fresh object (empty attribute dictionary) is allocated and
`__init__` runs on it.  `__init__` declares exactly one parameter beyond
`self`, so any argument count other than one raises `TypeError`. -/
def new (args : List α) : PyResult (Object α) :=
  match args with
  | [config] => .ok (init ⟨[]⟩ config)
  | _ => .exn .typeError

/-- `MilitaryOSINTAdapter.poll(self)`: the body is `pass` (plus comments), so
the call returns `None` (modelled as `Unit`) and leaves `self` unchanged. -/
def poll (self : Object α) : PyResult (Object α × Unit) :=
  .ok (self, ())

/-- Running `n` successive `poll()` invocations on an adapter, threading the
object state through and stopping at the first raised exception. -/
def pollN (self : Object α) : Nat → PyResult (Object α)
  | 0 => .ok self
  | n + 1 =>
    match poll self with
    | .ok (s, _) => pollN s n
    | .exn e => .exn e

end MilitaryOSINTAdapter

namespace SimAdapter

/-- Calling the class `SimAdapter(...)`: the class body is `pass`, so the
default `object.__init__` runs; it accepts no arguments beyond `self` and
sets no attributes, so a call with any argument raises `TypeError`. -/
def new (args : List α) : PyResult (Object α) :=
  match args with
  | [] => .ok ⟨[]⟩
  | _ => .exn .typeError

end SimAdapter

/-- Helper: any number of `poll()` invocations returns the starting object. -/
theorem pollN_fixed (o : Object α) :
    ∀ n, MilitaryOSINTAdapter.pollN o n = .ok o
  | 0 => rfl
  | n + 1 => pollN_fixed o n

/-- C1: constructing `MilitaryOSINTAdapter` with any configuration value `c`
stores `c` unchanged: reading the `config` attribute of the constructed
adapter returns exactly `c`. -/
theorem C1_config_identity (c : α) :
    ∃ o, MilitaryOSINTAdapter.new [c] = .ok o ∧ o.getattr "config" = some c :=
  ⟨_, rfl, rfl⟩

/-- C2: for every configuration value `c`, of any type, constructing
`MilitaryOSINTAdapter` with `c` succeeds and raises no exception. -/
theorem C2_construction_total (c : α) :
    ∃ o, MilitaryOSINTAdapter.new [c] = .ok o :=
  ⟨_, rfl⟩

/-- C3: on every constructed adapter object, `poll()` returns normally and
raises no exception. -/
theorem C3_poll_no_raise (self : Object α) :
    ∃ r, MilitaryOSINTAdapter.poll self = .ok r :=
  ⟨_, rfl⟩

/-- C4: `poll()` has no observable side effect: the object after the call is
identical to the object before it (every attribute, `config` included, is
unchanged). -/
theorem C4_poll_frame (self : Object α) :
    ∃ ret, MilitaryOSINTAdapter.poll self = .ok (self, ret) :=
  ⟨(), rfl⟩

/-- C5: `poll()` takes no parameters beyond `self` (its embedding has `self`
as its only argument) and returns no value: its result is `None`, modelled as
the unit value. -/
theorem C5_poll_returns_none (self : Object α) :
    ∃ s, MilitaryOSINTAdapter.poll self = .ok (s, ()) :=
  ⟨self, rfl⟩

/-- C6: the adapter has a single state and no transitions: after any finite
sequence of `poll()` invocations, an adapter constructed with `c` is in the
state it had immediately after construction. -/
theorem C6_no_transitions (c : α) (n : Nat) :
    ∃ o, MilitaryOSINTAdapter.new [c] = .ok o ∧
      MilitaryOSINTAdapter.pollN o n = .ok o :=
  ⟨_, rfl, pollN_fixed _ n⟩

/-- C7: no operation of the program raises an exception: constructing
`SimAdapter` with no arguments, constructing `MilitaryOSINTAdapter` with a
configuration value, and invoking `poll()` all complete normally. -/
theorem C7_no_exceptions (c : α) (self : Object α) :
    (∃ s, SimAdapter.new ([] : List α) = .ok s) ∧
    (∃ o, MilitaryOSINTAdapter.new [c] = .ok o) ∧
    (∃ r, MilitaryOSINTAdapter.poll self = .ok r) :=
  ⟨⟨_, rfl⟩, ⟨_, rfl⟩, ⟨_, rfl⟩⟩

/-- C8: the configuration argument of the constructor is mandatory and has no
default: calling `MilitaryOSINTAdapter` with zero arguments raises `TypeError`
rather than producing an adapter with a default config. -/
theorem C8_zero_args_type_error (α : Type) :
    MilitaryOSINTAdapter.new ([] : List α) = .exn .typeError :=
  rfl

/-- C9: construction and polling are deterministic: two adapters constructed
from the same configuration value are in identical states, and `poll()` on
each returns the same result (`None`) and the same unchanged state. -/
theorem C9_deterministic (c : α) :
    ∃ o₁ o₂, MilitaryOSINTAdapter.new [c] = .ok o₁ ∧
      MilitaryOSINTAdapter.new [c] = .ok o₂ ∧ o₁ = o₂ ∧
      MilitaryOSINTAdapter.poll o₁ = .ok (o₁, ()) ∧
      MilitaryOSINTAdapter.poll o₂ = .ok (o₂, ()) :=
  ⟨_, _, rfl, rfl, rfl, rfl, rfl⟩

/-- C10: constructing `MilitaryOSINTAdapter` with `c` sets exactly one
attribute, `config`, and nothing else; and `SimAdapter` is constructible with
no arguments, its instances carrying no attributes at all. -/
theorem C10_attribute_frame (c : α) :
    MilitaryOSINTAdapter.new [c] = .ok ⟨[("config", c)]⟩ ∧
    SimAdapter.new ([] : List α) = .ok ⟨[]⟩ :=
  ⟨rfl, rfl⟩

end SemperFi
